import Mathlib

/-!
Verification of the freeAuth phone-verification service.

The repository ships two parallel implementations of the same protocol:
an Express server backed by an in-memory JS Map
(src/server/services/session.js, src/server/services/telegram.js,
src/server/routes/auth.js) and a Cloudflare Worker backed by Firestore
(src/workers/index.js).  Both are embedded below; definitions with a
plain name model the Express/in-memory variant, definitions prefixed
with a lowercase w model the Worker variant.  The Firestore document
collection is modelled as the same keyed association list as the JS
Map: createDoc is a PATCH upsert, updateDoc merges the given fields
into the stored document, getDoc is a keyed read and queryDocs an
equality query on one field.
-/

namespace FreeAuth

/-- Session lifecycle status: "pending", "verified" or "expired". -/
inductive Status where
  | pending
  | verified
  | expired
deriving DecidableEq, Repr

/-- A verification-session record as stored by both variants.  Optional
string/number fields that JS leaves undefined or null are Option;
timestamps are naturals (milliseconds in the Express variant, the
Worker stores ISO strings that compare the same way). -/
structure Session where
  status : Status
  expected_phone : String
  chat_id : Option Int
  client_secret : Option String
  webhook_url : Option String
  phone : Option String
  telegram_id : Option Int
  first_name : Option String
  verified_at : Option Nat
  created_at : Nat
  expires_at : Nat
deriving DecidableEq, Repr

/-- The view returned by the status-check API: every Session field
except client_secret, which both variants strip before responding. -/
structure SafeSession where
  status : Status
  expected_phone : String
  chat_id : Option Int
  webhook_url : Option String
  phone : Option String
  telegram_id : Option Int
  first_name : Option String
  verified_at : Option Nat
  created_at : Nat
  expires_at : Nat
deriving DecidableEq, Repr

/-- Drop client_secret from a session (the object-rest destructuring
in routes/auth.js and in the worker handleCheck). -/
def stripSecret (s : Session) : SafeSession where
  status := s.status
  expected_phone := s.expected_phone
  chat_id := s.chat_id
  webhook_url := s.webhook_url
  phone := s.phone
  telegram_id := s.telegram_id
  first_name := s.first_name
  verified_at := s.verified_at
  created_at := s.created_at
  expires_at := s.expires_at

/-- A Telegram contact card as delivered in a message. -/
structure Contact where
  phone_number : String
  user_id : Int
  first_name : String
deriving DecidableEq, Repr

/-- A partial update as passed to storage.update / updateDoc: only the
fields that the code ever writes; a some field is merged over the
stored record, a none field is left untouched (JS object spread /
Firestore updateMask). -/
structure SessionPatch where
  status : Option Status
  chat_id : Option Int
  phone : Option String
  telegram_id : Option Int
  first_name : Option String
  verified_at : Option Nat
deriving DecidableEq, Repr

/-- The patch written by lazy expiry. -/
def patchExpire : SessionPatch := ⟨some .expired, none, none, none, none, none⟩

/-- The patch written by the /start chat binding. -/
def patchChat (chat : Int) : SessionPatch := ⟨none, some chat, none, none, none, none⟩

/-- The updateData written by the Express contact handler on commit
(telegram.js): status, phone, telegram_id, first_name, verified_at. -/
def patchVerifyX (c : Contact) (now : Nat) : SessionPatch :=
  ⟨some .verified, none, some c.phone_number, some c.user_id, some c.first_name, some now⟩

/-- The updateData written by the Worker contact handler on commit
(workers/index.js): status, phone, telegram_id, first_name —
and no verified_at. -/
def patchVerifyW (c : Contact) : SessionPatch :=
  ⟨some .verified, none, some c.phone_number, some c.user_id, some c.first_name, none⟩

/-- Merge a patch into a stored session ({ ...existing, ...data }). -/
def applyPatch (s : Session) (p : SessionPatch) : Session where
  status := p.status.getD s.status
  expected_phone := s.expected_phone
  chat_id := match p.chat_id with
    | some c => some c
    | none => s.chat_id
  client_secret := s.client_secret
  webhook_url := s.webhook_url
  phone := match p.phone with
    | some v => some v
    | none => s.phone
  telegram_id := match p.telegram_id with
    | some v => some v
    | none => s.telegram_id
  first_name := match p.first_name with
    | some v => some v
    | none => s.first_name
  verified_at := match p.verified_at with
    | some v => some v
    | none => s.verified_at
  created_at := s.created_at
  expires_at := s.expires_at

/-- Session tokens (UUID strings). -/
abbrev Token := String

/-- The shared mutable state: the token-keyed session map (a JS Map in
the Express variant, the Firestore verifications collection in the
Worker variant), kept in insertion order. -/
abbrev Store := List (Token × Session)

/-- Keyed lookup (Map.get / Firestore getDoc). -/
def storeGet : Store → Token → Option Session
  | [], _ => none
  | p :: rest, tok => if p.1 = tok then some p.2 else storeGet rest tok

/-- Keyed write (Map.set): replaces the value in place if the key is
present, appends otherwise. -/
def storeSet : Store → Token → Session → Store
  | [], tok, v => [(tok, v)]
  | p :: rest, tok, v =>
    if p.1 = tok then (tok, v) :: rest else p :: storeSet rest tok v

/-- storage.update: merge the patch into the stored session if the
token exists and report true, otherwise leave the store alone and
report false.  The Worker updateDoc has the same merge semantics via
the updateMask. -/
def storeUpdate (st : Store) (tok : Token) (p : SessionPatch) : Store × Bool :=
  match storeGet st tok with
  | some s => (storeSet st tok (applyPatch s p), true)
  | none => (st, false)

/-- storage.create of the in-memory store: verifications.set(token,
data) — an unconditional write. -/
def memCreate (st : Store) (tok : Token) (data : Session) : Store :=
  storeSet st tok data

/-- The Worker createDoc: a Firestore PATCH, i.e. an upsert (the source
comments that PATCH is used to allow upsert / avoid errors). -/
def wCreateDoc (st : Store) (tok : Token) (data : Session) : Store :=
  storeSet st tok data

/-- storage.findByChatId: scan the entries in insertion order for the
first one whose chat_id equals the argument and whose status is
pending. -/
def findByChatId (st : Store) (chat : Int) : Option (Token × Session) :=
  st.find? fun p => decide (p.2.chat_id = some chat ∧ p.2.status = Status.pending)

/-- The Worker's session lookup for a contact message: queryDocs on
chat_id == chat, then take the first result whose status is pending. -/
def queryPendingByChat (st : Store) (chat : Int) : Option (Token × Session) :=
  (st.filter fun p => decide (p.2.chat_id = some chat)).find? fun p =>
    decide (p.2.status = Status.pending)

/-- Phone canonicalization, core computation shared by all three copies
of normalizePhone in the source: strip every non-digit; if the digit
string starts with "09" and has exactly 10 digits, replace the leading
"0" by "251". -/
def normCore (l : List Char) : List Char :=
  let cleaned := l.filter Char.isDigit
  if ['0', '9'].isPrefixOf cleaned && cleaned.length == 10 then
    '2' :: '5' :: '1' :: cleaned.drop 1
  else cleaned

/-- normalizePhone (session.js, telegram.js, workers/index.js): empty
or missing input yields "", otherwise the digit canonicalization
above. -/
def normalizePhone (s : String) : String :=
  if s = "" then "" else String.mk (normCore s.data)

/-- The normalization rule exactly as the specification words it
(section 4.1 / claim C9): strip every non-digit character; if the
remaining digit string starts with the character 0 followed by 9 and
has exactly 10 digits, replace the leading 0 with 251; otherwise
return the digit string unchanged. -/
def normalizePhoneSpec (s : String) : String :=
  let d := s.data.filter Char.isDigit
  if d.take 2 = ['0', '9'] ∧ d.length = 10 then
    String.mk ('2' :: '5' :: '1' :: d.drop 1)
  else String.mk d

/-- validatePhoneNumber: the cleaned digit count must lie in [10,15]. -/
def validatePhoneNumber (s : String) : Bool :=
  let cleaned := s.data.filter Char.isDigit
  10 ≤ cleaned.length && cleaned.length ≤ 15

/-- The session record built by createSession (session.js): pending,
normalized expected phone, optional webhook/secret, 600000 ms TTL. -/
def createSessionData (phone : String) (wu cs : Option String) (now : Nat) : Session where
  status := .pending
  expected_phone := normalizePhone phone
  chat_id := none
  client_secret := cs
  webhook_url := wu
  phone := none
  telegram_id := none
  first_name := none
  verified_at := none
  created_at := now
  expires_at := now + 600000

/-- sessionService.getSession: raw store read, then lazy expiry — if
the record has an expiry timestamp and now is past it, persist status
:= expired and return the coerced copy.  Returns the store after the
read together with the session view. -/
def getSession (st : Store) (tok : Token) (now : Nat) : Store × Option Session :=
  match storeGet st tok with
  | none => (st, none)
  | some s =>
    if s.expires_at ≠ 0 ∧ now > s.expires_at then
      ((storeUpdate st tok patchExpire).1, some { s with status := .expired })
    else (st, some s)

/-- GET /api/check/:token (routes/auth.js): getSession, then strip
client_secret from the response. -/
def checkSession (st : Store) (tok : Token) (now : Nat) : Store × Option SafeSession :=
  ((getSession st tok now).1, (getSession st tok now).2.map stripSecret)

/-- The Worker handleCheck: getDoc, the same lazy-expiry write when the
document is past its expiry, then respond without client_secret. -/
def wHandleCheck (st : Store) (tok : Token) (now : Nat) : Store × Option SafeSession :=
  match storeGet st tok with
  | none => (st, none)
  | some doc =>
    if doc.expires_at ≠ 0 ∧ doc.expires_at < now then
      ((storeUpdate st tok patchExpire).1, some (stripSecret { doc with status := .expired }))
    else (st, some (stripSecret doc))

/-- The distinct user-visible chat replies of the two bot handlers. -/
inductive Reply where
  | welcome
  | invalidSession
  | alreadyVerified
  | sharePrompt
  | securityError
  | sessionExpired
  | verificationFailed
  | success
deriving DecidableEq, Repr

/-- The JSON body of the outbound success webhook.  verified_at is none
when the implementation omits the field from the body. -/
structure WebhookBody where
  event : String
  token : Token
  status : Status
  phone : String
  telegram_id : Int
  first_name : String
  verified_at : Option Nat
  secret : Option String
deriving DecidableEq, Repr

/-- Result of handling one contact message: the store afterwards, the
chat reply, and the webhook call (if any) with its body. -/
structure ContactResult where
  store : Store
  reply : Reply
  webhook : Option WebhookBody
deriving DecidableEq, Repr

/-- Express bot.start handler (telegram.js): no token argument yields
the generic welcome; an unknown token an invalid-session reply; a
verified session an already-verified reply; otherwise the chat_id is
written unconditionally and the contact prompt sent. -/
def handleStart (st : Store) (tokenArg : Option Token) (chat : Int) : Store × Reply :=
  match tokenArg with
  | none => (st, .welcome)
  | some tok =>
    match storeGet st tok with
    | none => (st, .invalidSession)
    | some s =>
      if s.status = .verified then (st, .alreadyVerified)
      else ((storeUpdate st tok (patchChat chat)).1, .sharePrompt)

/-- Worker /start branch (workers/index.js): the chat_id is written
only when the session exists and is pending; every other case replies
invalid/expired without touching the store. -/
def wHandleStart (st : Store) (tok : Token) (chat : Int) : Store × Reply :=
  match storeGet st tok with
  | some s =>
    if s.status = .pending then
      ((storeUpdate st tok (patchChat chat)).1, .sharePrompt)
    else (st, .invalidSession)
  | none => (st, .invalidSession)

/-- Express contact handler (telegram.js): ownership check, session
lookup by chat, phone comparison, then commit via storage.update with
patchVerifyX and a webhook call when webhook_url is set. -/
def handleContact (st : Store) (now : Nat) (chat fromId : Int) (c : Contact) : ContactResult :=
  if c.user_id ≠ fromId then ⟨st, .securityError, none⟩
  else
    match findByChatId st chat with
    | none => ⟨st, .sessionExpired, none⟩
    | some (tok, s) =>
      if normalizePhone c.phone_number ≠ s.expected_phone then
        ⟨st, .verificationFailed, none⟩
      else
        let st2 := (storeUpdate st tok (patchVerifyX c now)).1
        let wh : Option WebhookBody :=
          match s.webhook_url with
          | some _ =>
            some ⟨"verification_success", tok, .verified, c.phone_number,
              c.user_id, c.first_name, some now, s.client_secret⟩
          | none => none
        ⟨st2, .success, wh⟩

/-- Worker contact branch (workers/index.js): the same protocol, but
the session query goes through queryDocs, the commit patch carries no
verified_at, and the webhook body therefore has none either. -/
def wHandleContact (st : Store) (chat fromId : Int) (c : Contact) : ContactResult :=
  if c.user_id ≠ fromId then ⟨st, .securityError, none⟩
  else
    match queryPendingByChat st chat with
    | none => ⟨st, .sessionExpired, none⟩
    | some (tok, data) =>
      if normalizePhone c.phone_number ≠ data.expected_phone then
        ⟨st, .verificationFailed, none⟩
      else
        let st2 := (storeUpdate st tok (patchVerifyW c)).1
        let wh : Option WebhookBody :=
          match data.webhook_url with
          | some _ =>
            some ⟨"verification_success", tok, .verified, c.phone_number,
              c.user_id, c.first_name, none, data.client_secret⟩
          | none => none
        ⟨st2, .success, wh⟩

/-- Keys of a store. -/
def storeKeys (st : Store) : List Token := st.map Prod.fst

/-- Well-formedness maintained by a real JS Map / Firestore collection:
no two entries share a token. -/
def StoreWF (st : Store) : Prop := (storeKeys st).Nodup

instance storeWF_decidable (st : Store) : Decidable (StoreWF st) := by
  unfold StoreWF
  infer_instance

/-- Change only the client_secret of the session stored under tok,
leaving everything else in the store alone (used to state that the
check response cannot depend on the secret). -/
def storeSetSecretAt (st : Store) (tok : Token) (sec : Option String) : Store :=
  st.map fun p => if p.1 = tok then (p.1, { p.2 with client_secret := sec }) else p

/-- Process identifiers for two racing Worker contact deliveries. -/
inductive Pid where
  | a
  | b
deriving DecidableEq, Repr

/-- Per-delivery progress of the Worker contact handler between its
await points: readv records the result of the awaited Firestore query
once it has run; emitted the webhook call, if one was issued;
committed whether the handler has finished. -/
structure ProcSt where
  readv : Option (Option (Token × Session))
  emitted : Option WebhookBody
  committed : Bool
deriving DecidableEq, Repr

/-- A delivery that has not started yet. -/
def procInit : ProcSt := ⟨none, none, false⟩

/-- One resumption of the Worker contact handler.  The code suspends at
two store-touching awaits: the queryDocs read, and the updateDoc write
(the webhook fetch is fired right after the write, before the next
suspension, from the locally held query result).  Everything between
two awaits runs without interleaving. -/
def wContactStep (chat fromId : Int) (c : Contact) (st : Store) (p : ProcSt) :
    Store × ProcSt :=
  if c.user_id ≠ fromId then (st, { p with committed := true })
  else
    match p.readv with
    | none => (st, { p with readv := some (queryPendingByChat st chat) })
    | some r =>
      if p.committed then (st, p)
      else
        match r with
        | none => (st, { p with committed := true })
        | some (tok, data) =>
          if normalizePhone c.phone_number ≠ data.expected_phone then
            (st, { p with committed := true })
          else
            let st2 := (storeUpdate st tok (patchVerifyW c)).1
            let wh : Option WebhookBody :=
              match data.webhook_url with
              | some _ =>
                some ⟨"verification_success", tok, .verified, c.phone_number,
                  c.user_id, c.first_name, none, data.client_secret⟩
              | none => none
            (st2, { p with emitted := wh, committed := true })

/-- Shared state of two in-flight deliveries of the same contact
message. -/
structure RaceSt where
  store : Store
  pa : ProcSt
  pb : ProcSt
deriving DecidableEq, Repr

/-- Let the scheduled process take its next step. -/
def raceStep (chat fromId : Int) (c : Contact) (σ : RaceSt) : Pid → RaceSt
  | .a =>
    let r := wContactStep chat fromId c σ.store σ.pa
    { σ with store := r.1, pa := r.2 }
  | .b =>
    let r := wContactStep chat fromId c σ.store σ.pb
    { σ with store := r.1, pb := r.2 }

/-- Run a schedule (an interleaving of the two deliveries). -/
def raceRun (chat fromId : Int) (c : Contact) : List Pid → RaceSt → RaceSt
  | [], σ => σ
  | pid :: rest, σ => raceRun chat fromId c rest (raceStep chat fromId c σ pid)

/-- A pending session bound to chat 555 expecting 251911234567, with a
webhook target and a client secret: the setup of the §8 scenarios. -/
def demoBound : Session :=
  ⟨.pending, "251911234567", some 555, some "s3cret", some "https://example.com/hook",
    none, none, none, none, 0, 600000⟩

/-- The same user sharing their own matching contact card. -/
def demoContact : Contact := ⟨"+251911234567", 777, "Abebe"⟩

/-- A store holding exactly the demo session under token tok1. -/
def demoStore : Store := [("tok1", demoBound)]

/-- A verified session whose expiry has passed (verified at 50, expiry
at 100). -/
def demoVerifiedExpired : Session :=
  ⟨.verified, "251911234567", some 555, none, none, some "+251911234567",
    some 777, some "Abebe", some 50, 0, 100⟩

/-- A contact card whose user_id does not match the sender. -/
def demoForwarded : Contact := ⟨"+251911234567", 42, "Mallory"⟩

/-- A contact card with the right owner but the wrong phone. -/
def demoWrongPhone : Contact := ⟨"+251922000000", 777, "Abebe"⟩

/-- Two distinct session records for the duplicate-create scenario. -/
def demoFirst : Session :=
  ⟨.pending, "251911234567", none, none, none, none, none, none, none, 0, 600000⟩

/-- Second record, differing from demoFirst in its expected phone. -/
def demoSecond : Session :=
  ⟨.pending, "251922000000", none, some "other", none, none, none, none, none, 5, 600005⟩

/-! Helper lemmas about the store. -/

theorem storeGet_storeSet_self (st : Store) (tok : Token) (v : Session) :
    storeGet (storeSet st tok v) tok = some v := by
  induction st with
  | nil => simp [storeSet, storeGet]
  | cons p rest ih =>
    by_cases h : p.1 = tok
    · simp [storeSet, storeGet, h]
    · simp [storeSet, storeGet, h, ih]

theorem storeWF_tail {p : Token × Session} {rest : Store} (h : StoreWF (p :: rest)) :
    StoreWF rest := by
  simp [StoreWF, storeKeys, List.nodup_cons] at h
  exact h.2

theorem storeGet_of_mem_wf {st : Store} (hwf : StoreWF st) {tok : Token} {s : Session}
    (hmem : (tok, s) ∈ st) : storeGet st tok = some s := by
  induction st with
  | nil => cases hmem
  | cons p rest ih =>
    rcases List.mem_cons.mp hmem with h | h
    · rw [← h]; simp [storeGet]
    · by_cases he : p.1 = tok
      · exfalso
        have hwf2 : (p.1 :: rest.map Prod.fst).Nodup := hwf
        have h1 := (List.nodup_cons.mp hwf2).1
        apply h1
        rw [he]
        exact List.mem_map.mpr ⟨(tok, s), h, rfl⟩
      · simp [storeGet, he]
        exact ih (storeWF_tail hwf) h

theorem storeUpdate_of_get {st : Store} {tok : Token} {s : Session}
    (h : storeGet st tok = some s) (p : SessionPatch) :
    storeUpdate st tok p = (storeSet st tok (applyPatch s p), true) := by
  unfold storeUpdate
  rw [h]

theorem applyPatch_expire (s : Session) :
    applyPatch s patchExpire = { s with status := .expired } := rfl

theorem applyPatch_chat (s : Session) (chat : Int) :
    applyPatch s (patchChat chat) = { s with chat_id := some chat } := rfl

theorem applyPatch_verifyX (s : Session) (c : Contact) (now : Nat) :
    applyPatch s (patchVerifyX c now) =
      { s with
        status := .verified
        phone := some c.phone_number
        telegram_id := some c.user_id
        first_name := some c.first_name
        verified_at := some now } := rfl

theorem applyPatch_verifyW (s : Session) (c : Contact) :
    applyPatch s (patchVerifyW c) =
      { s with
        status := .verified
        phone := some c.phone_number
        telegram_id := some c.user_id
        first_name := some c.first_name } := rfl

theorem findByChatId_spec {st : Store} {chat : Int} {tok : Token} {s : Session}
    (h : findByChatId st chat = some (tok, s)) :
    (tok, s) ∈ st ∧ s.chat_id = some chat ∧ s.status = .pending := by
  refine ⟨List.mem_of_find?_eq_some h, ?_, ?_⟩
  · have hp := List.find?_some h
    simp at hp
    exact hp.1
  · have hp := List.find?_some h
    simp at hp
    exact hp.2

theorem findByChatId_eq_query (st : Store) (chat : Int) :
    findByChatId st chat = queryPendingByChat st chat := by
  induction st with
  | nil => rfl
  | cons p rest ih =>
    unfold findByChatId queryPendingByChat at ih ⊢
    by_cases hA : p.2.chat_id = some chat
    · by_cases hB : p.2.status = Status.pending
      · rw [List.find?_cons_of_pos _ (by simp [hA, hB]),
          List.filter_cons_of_pos (by simp [hA]),
          List.find?_cons_of_pos _ (by simp [hB])]
      · rw [List.find?_cons_of_neg _ (by simp [hB]),
          List.filter_cons_of_pos (by simp [hA]),
          List.find?_cons_of_neg _ (by simp [hB])]
        exact ih
    · rw [List.find?_cons_of_neg _ (by simp [hA]),
        List.filter_cons_of_neg (by simp [hA])]
      exact ih

theorem storeGet_setSecretAt (st : Store) (tok : Token) (sec : Option String) :
    storeGet (storeSetSecretAt st tok sec) tok =
      (storeGet st tok).map fun s => { s with client_secret := sec } := by
  induction st with
  | nil => rfl
  | cons p rest ih =>
    by_cases h : p.1 = tok
    · simp [storeSetSecretAt, storeGet, h]
    · simp [storeSetSecretAt, storeGet, h] at ih ⊢
      exact ih

/-! Helper lemmas about phone normalization. -/

theorem isPrefixOf09_iff (l : List Char) :
    (['0', '9'].isPrefixOf l = true) ↔ l.take 2 = ['0', '9'] := by
  rcases l with _ | ⟨c1, _ | ⟨c2, rest⟩⟩
  · simp [List.isPrefixOf]
  · simp [List.isPrefixOf]
  · simp [List.isPrefixOf, List.take]
    constructor
    · rintro ⟨h1, h2⟩
      exact ⟨h1.symm, h2.symm⟩
    · rintro ⟨h1, h2⟩
      exact ⟨h1.symm, h2.symm⟩

theorem normCond_iff (d : List Char) :
    (['0', '9'].isPrefixOf d && d.length == 10) = true ↔
      (d.take 2 = ['0', '9'] ∧ d.length = 10) := by
  rw [Bool.and_eq_true, isPrefixOf09_iff, beq_iff_eq]

theorem take2_09 {d : List Char} (h : d.take 2 = ['0', '9']) :
    ∃ rest, d = '0' :: '9' :: rest := by
  rcases d with _ | ⟨c1, _ | ⟨c2, rest⟩⟩
  · simp [List.take] at h
  · simp [List.take] at h
  · simp [List.take] at h
    exact ⟨rest, by rw [h.1, h.2]⟩

theorem mem_filter_isDigit {l : List Char} {c : Char} (h : c ∈ l.filter Char.isDigit) :
    Char.isDigit c = true := (List.mem_filter.mp h).2

theorem filter_isDigit_self {l : List Char} (h : ∀ c ∈ l, Char.isDigit c = true) :
    l.filter Char.isDigit = l := List.filter_eq_self.mpr h

theorem normCore_digits (l : List Char) : ∀ c ∈ normCore l, Char.isDigit c = true := by
  intro c hc
  simp only [normCore] at hc
  split at hc
  · simp [List.mem_cons] at hc
    rcases hc with h | h | h | h
    · rw [h]; rfl
    · rw [h]; rfl
    · rw [h]; rfl
    · rw [← List.drop_one] at h
      exact mem_filter_isDigit (List.drop_subset 1 _ h)
  · exact mem_filter_isDigit hc

theorem normCore_idem (l : List Char) : normCore (normCore l) = normCore l := by
  have hfs : (normCore l).filter Char.isDigit = normCore l :=
    filter_isDigit_self (normCore_digits l)
  by_cases hcond :
      (['0', '9'].isPrefixOf (l.filter Char.isDigit)
        && (l.filter Char.isDigit).length == 10) = true
  · have h09 : (l.filter Char.isDigit).take 2 = ['0', '9'] :=
      ((normCond_iff _).mp hcond).1
    obtain ⟨rest, hrest⟩ := take2_09 h09
    have hout : normCore l = '2' :: '5' :: '1' :: '9' :: rest := by
      simp only [normCore]
      rw [if_pos hcond, hrest]
      rfl
    rw [hout] at hfs ⊢
    have hpf : (['0', '9'].isPrefixOf ('2' :: '5' :: '1' :: '9' :: rest)) = false := by
      simp [List.isPrefixOf]
    simp only [normCore]
    rw [hfs, hpf]
    rfl
  · have hout : normCore l = l.filter Char.isDigit := by
      simp only [normCore]
      rw [if_neg hcond]
    rw [hout] at hfs ⊢
    simp only [normCore]
    rw [hfs, if_neg hcond]

theorem normalizePhone_eq_mk (s : String) :
    normalizePhone s = String.mk (normCore s.data) := by
  by_cases h : s = ""
  · subst h; rfl
  · simp [normalizePhone, h]

theorem normalizePhone_idem (s : String) :
    normalizePhone (normalizePhone s) = normalizePhone s := by
  rw [normalizePhone_eq_mk s, normalizePhone_eq_mk (String.mk (normCore s.data))]
  show String.mk (normCore (normCore s.data)) = String.mk (normCore s.data)
  rw [normCore_idem]

/-! Helper lemmas about the contact handlers. -/

theorem handleContact_mismatch {st : Store} {now : Nat} {chat fromId : Int} {c : Contact}
    {tok : Token} {s : Session}
    (hown : c.user_id = fromId)
    (hfind : findByChatId st chat = some (tok, s))
    (hmis : normalizePhone c.phone_number ≠ s.expected_phone) :
    handleContact st now chat fromId c = ⟨st, .verificationFailed, none⟩ := by
  simp only [handleContact, if_neg (by simp [hown] : ¬c.user_id ≠ fromId), hfind,
    if_pos hmis]

theorem wHandleContact_mismatch {st : Store} {chat fromId : Int} {c : Contact}
    {tok : Token} {s : Session}
    (hown : c.user_id = fromId)
    (hfind : findByChatId st chat = some (tok, s))
    (hmis : normalizePhone c.phone_number ≠ s.expected_phone) :
    wHandleContact st chat fromId c = ⟨st, .verificationFailed, none⟩ := by
  have hq : queryPendingByChat st chat = some (tok, s) := by
    rw [← findByChatId_eq_query]; exact hfind
  simp only [wHandleContact, if_neg (by simp [hown] : ¬c.user_id ≠ fromId), hq,
    if_pos hmis]

theorem handleContact_commit (now : Nat) {st : Store} {chat fromId : Int} {c : Contact}
    {tok : Token} {s : Session}
    (hwf : StoreWF st)
    (hown : c.user_id = fromId)
    (hfind : findByChatId st chat = some (tok, s))
    (hphone : normalizePhone c.phone_number = s.expected_phone) :
    handleContact st now chat fromId c =
      ⟨storeSet st tok (applyPatch s (patchVerifyX c now)), .success,
        s.webhook_url.map fun _ =>
          ⟨"verification_success", tok, .verified, c.phone_number, c.user_id,
            c.first_name, some now, s.client_secret⟩⟩ := by
  have hget : storeGet st tok = some s := storeGet_of_mem_wf hwf (findByChatId_spec hfind).1
  simp only [handleContact, if_neg (by simp [hown] : ¬c.user_id ≠ fromId), hfind,
    if_neg (by simp [hphone] : ¬normalizePhone c.phone_number ≠ s.expected_phone),
    storeUpdate_of_get hget]
  cases s.webhook_url <;> rfl

theorem wHandleContact_commit {st : Store} {chat fromId : Int} {c : Contact}
    {tok : Token} {s : Session}
    (hwf : StoreWF st)
    (hown : c.user_id = fromId)
    (hfind : findByChatId st chat = some (tok, s))
    (hphone : normalizePhone c.phone_number = s.expected_phone) :
    wHandleContact st chat fromId c =
      ⟨storeSet st tok (applyPatch s (patchVerifyW c)), .success,
        s.webhook_url.map fun _ =>
          ⟨"verification_success", tok, .verified, c.phone_number, c.user_id,
            c.first_name, none, s.client_secret⟩⟩ := by
  have hget : storeGet st tok = some s := storeGet_of_mem_wf hwf (findByChatId_spec hfind).1
  have hq : queryPendingByChat st chat = some (tok, s) := by
    rw [← findByChatId_eq_query]; exact hfind
  simp only [wHandleContact, if_neg (by simp [hown] : ¬c.user_id ≠ fromId), hq,
    if_neg (by simp [hphone] : ¬normalizePhone c.phone_number ≠ s.expected_phone),
    storeUpdate_of_get hget]
  cases s.webhook_url <;> rfl

theorem getSession_setSecretAt (st : Store) (tok : Token) (now : Nat) (sec : Option String) :
    (getSession (storeSetSecretAt st tok sec) tok now).2
      = ((getSession st tok now).2).map fun s => { s with client_secret := sec } := by
  unfold getSession
  rw [storeGet_setSecretAt]
  cases storeGet st tok with
  | none => rfl
  | some s =>
    by_cases hc : s.expires_at ≠ 0 ∧ now > s.expires_at
    · simp [hc]
    · simp [hc]

theorem wHandleCheck_setSecretAt (st : Store) (tok : Token) (now : Nat) (sec : Option String) :
    (wHandleCheck (storeSetSecretAt st tok sec) tok now).2 = (wHandleCheck st tok now).2 := by
  unfold wHandleCheck
  rw [storeGet_setSecretAt]
  cases storeGet st tok with
  | none => rfl
  | some s =>
    by_cases hc : s.expires_at ≠ 0 ∧ s.expires_at < now
    · simp [hc, stripSecret]
    · simp [hc, stripSecret]

/-! Claim theorems. -/

/-- Claim C9: normalizePhone strips every non-digit character and, when
the remaining digit string starts with the character 0 followed by 9
and has exactly 10 digits, replaces the leading 0 with 251, otherwise
returns the digit string unchanged — it agrees with the stated rule
normalizePhoneSpec on every input string; in particular it maps
"0911234567" to "251911234567", "+251911234567" to "251911234567" and
the empty string to itself. -/
theorem c9_normalize_matches_spec :
    (∀ s, normalizePhone s = normalizePhoneSpec s)
    ∧ normalizePhone "0911234567" = "251911234567"
    ∧ normalizePhone "+251911234567" = "251911234567"
    ∧ normalizePhone "" = "" := by
  refine ⟨?_, by decide, by decide, rfl⟩
  intro s
  rw [normalizePhone_eq_mk]
  simp only [normalizePhoneSpec, normCore]
  by_cases hcond : (s.data.filter Char.isDigit).take 2 = ['0', '9']
      ∧ (s.data.filter Char.isDigit).length = 10
  · rw [if_pos ((normCond_iff _).mpr hcond), if_pos hcond]
  · rw [if_neg fun h => hcond ((normCond_iff _).mp h), if_neg hcond]

/-- Claim C10: normalizePhone is idempotent; consequently the
expected_phone stored by createSessionData is a fixed point of
normalization, and comparing a contact's normalized phone against the
stored expected_phone is equivalent to comparing both sides in fully
normalized form. -/
theorem c10_normalize_idempotent :
    (∀ s, normalizePhone (normalizePhone s) = normalizePhone s)
    ∧ (∀ phone wu cs now,
        normalizePhone ((createSessionData phone wu cs now).expected_phone)
          = (createSessionData phone wu cs now).expected_phone)
    ∧ (∀ c raw,
        normalizePhone c = normalizePhone raw
          ↔ normalizePhone c = normalizePhone (normalizePhone raw)) := by
  refine ⟨normalizePhone_idem, ?_, ?_⟩
  · intro phone wu cs now
    exact normalizePhone_idem phone
  · intro c raw
    rw [normalizePhone_idem]

/-- Claim C4: a contact whose user_id differs from the sender's own
Telegram id is rejected with a security error and performs no state
mutation in either variant: the handler returns the store it was given,
and no webhook call is issued. -/
theorem c4_forwarded_contact_no_mutation (st : Store) (now : Nat) (chat fromId : Int)
    (c : Contact) (h : c.user_id ≠ fromId) :
    handleContact st now chat fromId c = ⟨st, .securityError, none⟩
    ∧ wHandleContact st chat fromId c = ⟨st, .securityError, none⟩ := by
  constructor
  · unfold handleContact
    rw [if_pos h]
  · unfold wHandleContact
    rw [if_pos h]

/-- Witness for C4 at a concrete forwarded contact (card owner 42,
sender 777). -/
theorem c4_forwarded_contact_no_mutation_witness :
    handleContact demoStore 0 555 777 demoForwarded = ⟨demoStore, .securityError, none⟩
    ∧ wHandleContact demoStore 555 777 demoForwarded = ⟨demoStore, .securityError, none⟩ :=
  c4_forwarded_contact_no_mutation demoStore 0 555 777 demoForwarded (by decide)

/-- Claim C6 counterexample: creating the same token twice does not
fail — the second create silently replaces the first record in both
variants (the in-memory create is a bare Map.set and the Worker
createDoc is deliberately a PATCH upsert), and no retry logic exists. -/
theorem c6_create_overwrites_cex :
    memCreate (memCreate [] "t" demoFirst) "t" demoSecond = [("t", demoSecond)]
    ∧ wCreateDoc (wCreateDoc [] "t" demoFirst) "t" demoSecond = [("t", demoSecond)]
    ∧ demoFirst ≠ demoSecond := by
  refine ⟨by decide, by decide, by decide⟩

/-- Claim C6 (amended): create is an unconditional upsert in both
variants — it always succeeds and the supplied record replaces whatever
was stored under the token; no Conflict error is raised (and hence no
internal retry with a fresh token happens). -/
theorem c6_create_upsert_amended (st : Store) (tok : Token) (d : Session) :
    storeGet (memCreate st tok d) tok = some d
    ∧ storeGet (wCreateDoc st tok d) tok = some d :=
  ⟨storeGet_storeSet_self st tok d, storeGet_storeSet_self st tok d⟩

/-- Claim C7: the status-check response never contains the stored
client_secret (its type SafeSession has no such field), and the
response cannot depend on it: changing only the client_secret of the
stored session leaves the response of both the Express check route and
the Worker handleCheck unchanged. -/
theorem c7_check_secret_noninterference (st : Store) (tok : Token) (now : Nat)
    (sec : Option String) :
    (checkSession (storeSetSecretAt st tok sec) tok now).2 = (checkSession st tok now).2
    ∧ (wHandleCheck (storeSetSecretAt st tok sec) tok now).2
        = (wHandleCheck st tok now).2 := by
  constructor
  · unfold checkSession
    rw [getSession_setSecretAt]
    cases (getSession st tok now).2 with
    | none => rfl
    | some s => rfl
  · exact wHandleCheck_setSecretAt st tok now sec

/-- Claim C1 counterexample: a VERIFIED session whose expiry has passed
is also coerced to expired on read, and that coercion is persisted —
the code checks only the expiry timestamp, never that the stored status
is pending, so the coercion does not happen "exactly when ... the
stored status is pending". -/
theorem c1_expiry_ignores_status_cex :
    demoVerifiedExpired.status = .verified
    ∧ ((getSession [("t", demoVerifiedExpired)] "t" 200).2).map Session.status
        = some .expired
    ∧ (storeGet (getSession [("t", demoVerifiedExpired)] "t" 200).1 "t").map Session.status
        = some .expired
    ∧ ((wHandleCheck [("t", demoVerifiedExpired)] "t" 200).2).map SafeSession.status
        = some .expired := by
  refine ⟨rfl, by decide, by decide, by decide⟩

/-- Claim C1 (amended): the lazy-expiry coercion is performed by
sessionService.getSession and by the Worker handleCheck (the raw store
get never mutates), and it fires, with the expired status persisted
before returning, exactly when the record carries a nonzero expiry
timestamp and now is past it — regardless of the stored status; a read
of a session not past its expiry (in particular an unexpired pending
one) returns it unchanged with no store mutation. -/
theorem c1_lazy_expiry_amended (st : Store) (tok : Token) (now : Nat) (s : Session)
    (h : storeGet st tok = some s) :
    (s.expires_at ≠ 0 ∧ now > s.expires_at →
      getSession st tok now
        = (storeSet st tok { s with status := .expired }, some { s with status := .expired })
      ∧ storeGet (getSession st tok now).1 tok = some { s with status := .expired }
      ∧ wHandleCheck st tok now
        = (storeSet st tok { s with status := .expired },
           some (stripSecret { s with status := .expired }))
      ∧ (checkSession st tok now).2 = some (stripSecret { s with status := .expired }))
    ∧ (¬(s.expires_at ≠ 0 ∧ now > s.expires_at) →
      getSession st tok now = (st, some s)
      ∧ wHandleCheck st tok now = (st, some (stripSecret s))
      ∧ (checkSession st tok now).2 = some (stripSecret s)) := by
  have hupd := storeUpdate_of_get h patchExpire
  constructor
  · intro hc
    have hg : getSession st tok now
        = (storeSet st tok { s with status := .expired }, some { s with status := .expired }) := by
      simp only [getSession, h, hupd, applyPatch_expire]
      rw [if_pos hc]
    refine ⟨hg, ?_, ?_, ?_⟩
    · rw [hg]
      exact storeGet_storeSet_self st tok _
    · simp only [wHandleCheck, h, hupd, applyPatch_expire]
      rw [if_pos hc]
    · unfold checkSession
      rw [hg]
      rfl
  · intro hc
    have hg : getSession st tok now = (st, some s) := by
      simp only [getSession, h]
      rw [if_neg hc]
    refine ⟨hg, ?_, ?_⟩
    · simp only [wHandleCheck, h]
      rw [if_neg hc]
    · unfold checkSession
      rw [hg]
      rfl

/-- Witness for the amended C1: the verified-and-expired demo session is
coerced on read at time 200, and the pending demo session read at time
300 (before its expiry) comes back unchanged with no mutation. -/
theorem c1_lazy_expiry_amended_witness :
    getSession [("t", demoVerifiedExpired)] "t" 200
      = (storeSet [("t", demoVerifiedExpired)] "t"
          { demoVerifiedExpired with status := .expired },
         some { demoVerifiedExpired with status := .expired })
    ∧ getSession demoStore "tok1" 300 = (demoStore, some demoBound) :=
  ⟨((c1_lazy_expiry_amended [("t", demoVerifiedExpired)] "t" 200 demoVerifiedExpired
      (by decide)).1 (by decide)).1,
   ((c1_lazy_expiry_amended demoStore "tok1" 300 demoBound (by decide)).2 (by decide)).1⟩

/-- Claim C3 counterexample: the demo session is pending and already
bound to chat 555, yet a /start from chat 777 rebinds chat_id to 777 in
both variants — chat_id is not set at most once. -/
theorem c3_rebind_cex :
    demoBound.status = .pending
    ∧ demoBound.chat_id = some 555
    ∧ (storeGet (wHandleStart demoStore "tok1" 777).1 "tok1").map Session.chat_id
        = some (some 777)
    ∧ (storeGet (handleStart demoStore (some "tok1") 777).1 "tok1").map Session.chat_id
        = some (some 777) := by
  refine ⟨rfl, rfl, by decide, by decide⟩

/-- Claim C3 (amended): every accepted /start writes chat_id to the
issuing chat, rebinding it even if a different chat was already bound:
the Worker binds exactly when the session is pending and is otherwise a
no-op; the Express bot handler binds whenever the session exists with
status other than verified (so also when it is expired), replies
already-verified without a write on a verified session, and neither
variant changes state for an absent token. -/
theorem c3_chat_binding_amended (st : Store) (tok : Token) (chat : Int) :
    (∀ s, storeGet st tok = some s →
      (s.status = .pending →
        wHandleStart st tok chat
          = (storeSet st tok { s with chat_id := some chat }, .sharePrompt))
      ∧ (s.status ≠ .pending → wHandleStart st tok chat = (st, .invalidSession))
      ∧ (s.status = .verified → handleStart st (some tok) chat = (st, .alreadyVerified))
      ∧ (s.status ≠ .verified →
        handleStart st (some tok) chat
          = (storeSet st tok { s with chat_id := some chat }, .sharePrompt)))
    ∧ (storeGet st tok = none →
      wHandleStart st tok chat = (st, .invalidSession)
      ∧ handleStart st (some tok) chat = (st, .invalidSession)) := by
  constructor
  · intro s h
    have hupd := storeUpdate_of_get h (patchChat chat)
    refine ⟨?_, ?_, ?_, ?_⟩
    · intro hp
      simp only [wHandleStart, h, hupd, applyPatch_chat]
      rw [if_pos hp]
    · intro hp
      simp only [wHandleStart, h]
      rw [if_neg hp]
    · intro hv
      simp only [handleStart, h]
      rw [if_pos hv]
    · intro hv
      simp only [handleStart, h, hupd, applyPatch_chat]
      rw [if_neg hv]
  · intro h
    constructor
    · simp only [wHandleStart, h]
    · simp only [handleStart, h]

/-- Witness for the amended C3: a /start from chat 777 on the pending
demo session (already bound to 555) rebinds it in both variants. -/
theorem c3_chat_binding_amended_witness :
    wHandleStart demoStore "tok1" 777
      = (storeSet demoStore "tok1" { demoBound with chat_id := some 777 }, .sharePrompt)
    ∧ handleStart demoStore (some "tok1") 777
      = (storeSet demoStore "tok1" { demoBound with chat_id := some 777 }, .sharePrompt) :=
  ⟨((c3_chat_binding_amended demoStore "tok1" 777).1 demoBound (by decide)).1 (by decide),
   (((c3_chat_binding_amended demoStore "tok1" 777).1 demoBound (by decide)).2.2.2) (by decide)⟩

/-- Claim C5 counterexample: a successful Worker commit stores
status=verified but leaves verified_at unset, and the webhook body it
sends carries no verified_at either — the Worker variant does not set
verified_at to the commit time. -/
theorem c5_worker_missing_verified_at_cex :
    (storeGet (wHandleContact demoStore 555 777 demoContact).store "tok1").map Session.status
      = some .verified
    ∧ (storeGet (wHandleContact demoStore 555 777 demoContact).store "tok1").map
        Session.verified_at = some none
    ∧ (wHandleContact demoStore 555 777 demoContact).webhook.map WebhookBody.verified_at
      = some none := by
  refine ⟨by decide, by decide, by decide⟩

/-- Claim C5 (amended): on the pending-to-verified commit the Express
variant updates the record with status verified and phone, telegram_id,
first_name from the contact card and verified_at = now, and (when
webhook_url is set) sends exactly the body event/token/status/phone/
telegram_id/first_name/verified_at/secret with secret = client_secret;
the Worker variant stores and sends the same fields EXCEPT that it
neither writes verified_at nor includes it in the body. -/
theorem c5_commit_fields_amended (st : Store) (now : Nat) (chat fromId : Int) (c : Contact)
    (tok : Token) (s : Session)
    (hwf : StoreWF st)
    (hown : c.user_id = fromId)
    (hfind : findByChatId st chat = some (tok, s))
    (hphone : normalizePhone c.phone_number = s.expected_phone) :
    storeGet (handleContact st now chat fromId c).store tok
      = some { s with
          status := .verified
          phone := some c.phone_number
          telegram_id := some c.user_id
          first_name := some c.first_name
          verified_at := some now }
    ∧ (handleContact st now chat fromId c).webhook
        = (s.webhook_url.map fun _ =>
            ⟨"verification_success", tok, .verified, c.phone_number, c.user_id,
              c.first_name, some now, s.client_secret⟩)
    ∧ (handleContact st now chat fromId c).reply = .success
    ∧ storeGet (wHandleContact st chat fromId c).store tok
      = some { s with
          status := .verified
          phone := some c.phone_number
          telegram_id := some c.user_id
          first_name := some c.first_name }
    ∧ (wHandleContact st chat fromId c).webhook
        = (s.webhook_url.map fun _ =>
            ⟨"verification_success", tok, .verified, c.phone_number, c.user_id,
              c.first_name, none, s.client_secret⟩) := by
  have hX := handleContact_commit now hwf hown hfind hphone
  have hW := wHandleContact_commit hwf hown hfind hphone
  refine ⟨?_, ?_, ?_, ?_, ?_⟩
  · rw [hX]
    show storeGet (storeSet st tok (applyPatch s (patchVerifyX c now))) tok = _
    rw [storeGet_storeSet_self, applyPatch_verifyX]
  · rw [hX]
  · rw [hX]
  · rw [hW]
    show storeGet (storeSet st tok (applyPatch s (patchVerifyW c))) tok = _
    rw [storeGet_storeSet_self, applyPatch_verifyW]
  · rw [hW]

/-- Witness for the amended C5 at the demo session and matching
contact: the Express store carries verified_at = 42 while the Worker
webhook body carries none. -/
theorem c5_commit_fields_amended_witness :
    storeGet (handleContact demoStore 42 555 777 demoContact).store "tok1"
      = some { demoBound with
          status := .verified
          phone := some "+251911234567"
          telegram_id := some 777
          first_name := some "Abebe"
          verified_at := some 42 }
    ∧ (wHandleContact demoStore 555 777 demoContact).webhook
      = some ⟨"verification_success", "tok1", .verified, "+251911234567", 777, "Abebe",
          none, some "s3cret"⟩ := by
  have h := c5_commit_fields_amended demoStore 42 555 777 demoContact "tok1" demoBound
    (by decide) (by decide) (by decide) (by decide)
  exact ⟨h.1, by rw [h.2.2.2.2]; rfl⟩

/-- Claim C8: a contact with the right owner but a mismatching
normalized phone yields a verification-failed reply and no state change
in either variant (the session stays pending with every field intact),
and a subsequent contact in the same chat whose normalized phone equals
expected_phone still commits the verified transition. -/
theorem c8_phone_mismatch_then_retry (st : Store) (now now2 : Nat)
    (chat fromId fromId2 : Int) (c c2 : Contact) (tok : Token) (s : Session)
    (hwf : StoreWF st)
    (hown : c.user_id = fromId)
    (hfind : findByChatId st chat = some (tok, s))
    (hmis : normalizePhone c.phone_number ≠ s.expected_phone)
    (hown2 : c2.user_id = fromId2)
    (hmatch : normalizePhone c2.phone_number = s.expected_phone) :
    handleContact st now chat fromId c = ⟨st, .verificationFailed, none⟩
    ∧ wHandleContact st chat fromId c = ⟨st, .verificationFailed, none⟩
    ∧ s.status = .pending
    ∧ (storeGet (handleContact st now2 chat fromId2 c2).store tok).map Session.status
        = some .verified
    ∧ (storeGet (wHandleContact st chat fromId2 c2).store tok).map Session.status
        = some .verified := by
  refine ⟨handleContact_mismatch hown hfind hmis, wHandleContact_mismatch hown hfind hmis,
    (findByChatId_spec hfind).2.2, ?_, ?_⟩
  · rw [handleContact_commit now2 hwf hown2 hfind hmatch]
    show (storeGet (storeSet st tok (applyPatch s (patchVerifyX c2 now2))) tok).map
      Session.status = _
    rw [storeGet_storeSet_self]
    rfl
  · rw [wHandleContact_commit hwf hown2 hfind hmatch]
    show (storeGet (storeSet st tok (applyPatch s (patchVerifyW c2))) tok).map
      Session.status = _
    rw [storeGet_storeSet_self]
    rfl

/-- Witness for C8: the wrong-phone contact fails without mutation and
the matching contact afterwards verifies the demo session. -/
theorem c8_phone_mismatch_then_retry_witness :
    handleContact demoStore 10 555 777 demoWrongPhone = ⟨demoStore, .verificationFailed, none⟩
    ∧ (storeGet (handleContact demoStore 20 555 777 demoContact).store "tok1").map
        Session.status = some .verified := by
  have h := c8_phone_mismatch_then_retry demoStore 10 20 555 777 777 demoWrongPhone
    demoContact "tok1" demoBound (by decide) (by decide) (by decide) (by decide)
    (by decide) (by decide)
  exact ⟨h.1, h.2.2.2.1⟩

/-- Claim C2 (the code bug in the Worker variant): with the interleaving
a-query, b-query, a-update, b-update of two identical valid contact
deliveries for the one pending session, both deliveries pass the
pending check on their own query snapshot, both commit and BOTH issue a
webhook call — the sequential schedule a,a,b,b issues exactly one,
showing that the missing atomicity of the query-then-update pattern is
the cause. -/
theorem c2_worker_double_webhook :
    ((raceRun 555 777 demoContact [.a, .b, .a, .b]
        ⟨demoStore, procInit, procInit⟩).pa.emitted).isSome = true
    ∧ ((raceRun 555 777 demoContact [.a, .b, .a, .b]
        ⟨demoStore, procInit, procInit⟩).pb.emitted).isSome = true
    ∧ (storeGet (raceRun 555 777 demoContact [.a, .b, .a, .b]
        ⟨demoStore, procInit, procInit⟩).store "tok1").map Session.status = some .verified
    ∧ ((raceRun 555 777 demoContact [.a, .a, .b, .b]
        ⟨demoStore, procInit, procInit⟩).pa.emitted).isSome = true
    ∧ (raceRun 555 777 demoContact [.a, .a, .b, .b]
        ⟨demoStore, procInit, procInit⟩).pb.emitted = none := by
  refine ⟨by decide, by decide, by decide, by decide, by decide⟩

end FreeAuth
